import Mathlib

/-!
Verification of the CRM support-agent repository: a shallow embedding of its
thread store (mongodb_memory.py), e-mail processing pipeline
(gmail_mongodb_integration.py), tool handlers (agent_main_with_mongodb.py)
and sheet logging (sheets_service.py), with theorems settling the frozen
claims about it.

Text transforms are modelled on `List Char` with `String` wrappers; machine
integers do not occur on the verified paths.  External services (the language
model, the certificate / billing HTTP APIs, the filesystem, parseaddr) are
modelled as oracle parameters; fallible external actions are `Except` values.
-/

namespace CRM

/-- Python whitespace class `\s` (ASCII range), also the set stripped by
`str.strip()`. -/
def pyIsSpace (c : Char) : Bool :=
  c = ' ' || c = '\t' || c = '\n' || c = '\r' || c = '\x0b' || c = '\x0c'

/-- `str.strip()` from the left: drop leading whitespace. -/
def stripLeftL (l : List Char) : List Char := l.dropWhile pyIsSpace

/-- `str.strip()`: drop leading and trailing whitespace. -/
def pyStripL (l : List Char) : List Char :=
  ((l.dropWhile pyIsSpace).reverse.dropWhile pyIsSpace).reverse

/-- `re.sub(p+, ' ', ·)` for a character class `p`: every maximal nonempty run
of characters satisfying `p` becomes a single space.  The Bool argument says
whether we are inside a run that has already emitted its space. -/
def collapseRunsAux (p : Char → Bool) : Bool → List Char → List Char
  | _, [] => []
  | inRun, c :: rest =>
    if p c then
      if inRun then collapseRunsAux p true rest
      else ' ' :: collapseRunsAux p true rest
    else c :: collapseRunsAux p false rest

/-- `re.sub(r'\s+', ' ', ·)` (mongodb_memory.py line 45). -/
def collapseWsL (l : List Char) : List Char := collapseRunsAux pyIsSpace false l

/-- `re.sub(r' +', ' ', ·)` (gmail_mongodb_integration.py line 230): collapse
runs of spaces only. -/
def collapseSpacesL (l : List Char) : List Char :=
  collapseRunsAux (fun c => c = ' ') false l

/-- `re.sub(r'<[^>]+>', '', ·)`: remove every maximal `<`…`>` segment with at
least one non-`>` character inside, scanning left to right.  The first
argument buffers (reversed) the characters seen since an as-yet-unclosed `<`;
`none` means no pending `<`. -/
def stripTagsAux : Option (List Char) → List Char → List Char
  | none, [] => []
  | some buf, [] => '<' :: buf.reverse
  | none, '<' :: rest => stripTagsAux (some []) rest
  | none, c :: rest => c :: stripTagsAux none rest
  | some buf, '>' :: rest =>
    if buf.isEmpty then '<' :: '>' :: stripTagsAux none rest
    else stripTagsAux none rest
  | some buf, c :: rest => stripTagsAux (some (c :: buf)) rest

/-- HTML tag removal as used in both cleaning passes. -/
def stripTagsL (l : List Char) : List Char := stripTagsAux none l

/-- Python `html.unescape`, modelled for the named and numeric character
references that occur in this system's inputs (`&amp; &lt; &gt; &quot; &#39;
&nbsp;`); `html.unescape` does not rescan its own output, and neither does
this model. -/
def unescapeL : List Char → List Char
  | [] => []
  | '&' :: 'a' :: 'm' :: 'p' :: ';' :: rest => '&' :: unescapeL rest
  | '&' :: 'l' :: 't' :: ';' :: rest => '<' :: unescapeL rest
  | '&' :: 'g' :: 't' :: ';' :: rest => '>' :: unescapeL rest
  | '&' :: 'q' :: 'u' :: 'o' :: 't' :: ';' :: rest => '"' :: unescapeL rest
  | '&' :: '#' :: '3' :: '9' :: ';' :: rest => '\'' :: unescapeL rest
  | '&' :: 'n' :: 'b' :: 's' :: 'p' :: ';' :: rest => ' ' :: unescapeL rest
  | c :: rest => c :: unescapeL rest

/-- Python `pat in s` substring test. -/
def containsSubL (s pat : List Char) : Bool :=
  if pat.isPrefixOf s then true
  else
    match s with
    | [] => false
    | _ :: rest => containsSubL rest pat

/-- `str.split('\n')`. -/
def splitNlL : List Char → List (List Char)
  | [] => [[]]
  | '\n' :: rest => [] :: splitNlL rest
  | c :: rest =>
    match splitNlL rest with
    | [] => [[c]]
    | h :: t => (c :: h) :: t

/-- `'\n'.join(·)`. -/
def joinNlL (ls : List (List Char)) : List Char :=
  match ls with
  | [] => []
  | [l] => l
  | l :: rest => l ++ '\n' :: joinNlL rest

/-- `str.replace(pat, rep)` (all non-overlapping occurrences, left to right);
fuel-driven so that it reduces by `decide`; the wrapper passes the input
length as fuel, which suffices because each step consumes at least one
character. -/
def replaceAllAux (pat rep : List Char) : Nat → List Char → List Char
  | _, [] => []
  | 0, s => s
  | fuel + 1, c :: rest =>
    if pat ≠ [] && pat.isPrefixOf (c :: rest) then
      rep ++ replaceAllAux pat rep fuel ((c :: rest).drop pat.length)
    else c :: replaceAllAux pat rep fuel rest

def replaceAllL (s pat rep : List Char) : List Char :=
  replaceAllAux pat rep s.length s

/-- `str.lower()` (ASCII model). -/
def pyLowerL (l : List Char) : List Char := l.map Char.toLower

/-- String wrappers. -/
def pyStrip (s : String) : String := ⟨pyStripL s.data⟩
def containsSub (s pat : String) : Bool := containsSubL s.data pat.data
def pyLower (s : String) : String := ⟨pyLowerL s.data⟩

/-- The OCR marker literal `"EXTRACTED IMAGE CONTENT"`. -/
def marker : List Char := "EXTRACTED IMAGE CONTENT".data

/-- The literal `"EXTRACTED IMAGE CONTENT:"`. -/
def markerColon : List Char := "EXTRACTED IMAGE CONTENT:".data

/-- `clean_html_tags` (gmail_mongodb_integration.py lines 205-239): decode
entities, strip tags, collapse space runs, strip each line and drop blank
lines, then (when the input carried the OCR marker but the cleaned text lacks
the colon form) replace every `"EXTRACTED IMAGE CONTENT"` with
`"EXTRACTED IMAGE CONTENT:"`. -/
def clean_html_tags (text : String) : String :=
  if text.data = [] then ""
  else
    let hasImageContent := containsSubL text.data marker
    let t := unescapeL text.data
    let ct := stripTagsL t
    let ct := collapseSpacesL ct
    let ct := joinNlL (((splitNlL ct).map pyStripL).filter (fun l => l ≠ []))
    let ct :=
      if hasImageContent && !containsSubL ct markerColon then
        if containsSubL ct marker then replaceAllL ct marker markerColon else ct
      else ct
    ⟨ct⟩

/-- Lazy extension of an OCR block: consume characters up to (not including)
the first position where `"\n\n"` follows or the input ends — the
`.*?(?=\n\n|\Z)` part of the findall pattern in mongodb_memory.py line 48,
with `re.DOTALL`. -/
def lazyExt : List Char → List Char × List Char
  | [] => ([], [])
  | '\n' :: '\n' :: rest => ([], '\n' :: '\n' :: rest)
  | c :: rest =>
    let p := lazyExt rest
    (c :: p.1, p.2)

/-- `re.findall(r'EXTRACTED IMAGE CONTENT.*?(?=\n\n|\Z)', ·, re.DOTALL)`:
all non-overlapping blocks, scanning left to right.  Fuel-driven (the wrapper
passes the input length): each step consumes at least one character. -/
def findBlocksAux : Nat → List Char → List (List Char)
  | _, [] => []
  | 0, _ => []
  | fuel + 1, s =>
    if marker.isPrefixOf s then
      let p := lazyExt (s.drop marker.length)
      (marker ++ p.1) :: findBlocksAux fuel p.2
    else
      match s with
      | [] => []
      | _ :: rest => findBlocksAux fuel rest

def findBlocksL (s : List Char) : List (List Char) := findBlocksAux s.length s

/-- `"\n\n".join(·)`. -/
def joinNlNlL (ls : List (List Char)) : List Char :=
  match ls with
  | [] => []
  | [l] => l
  | l :: rest => l ++ '\n' :: '\n' :: joinNlNlL rest

/-- The content stored for a nonempty human message by
`MongoDBChatMessageHistory.add_message` (mongodb_memory.py lines 42-54):
unescape, strip tags, collapse all whitespace runs to single spaces, strip;
if the original content carried the OCR marker but the cleaned text lost it,
re-append the marker blocks found in the original, separated by blank
lines. -/
def add_message_content (content : String) : String :=
  let text := unescapeL content.data
  let cleaned := pyStripL (collapseWsL (stripTagsL text))
  if containsSubL content.data marker && !containsSubL cleaned marker then
    let blocks := findBlocksL content.data
    if blocks ≠ [] then
      ⟨cleaned ++ '\n' :: '\n' :: joinNlNlL blocks⟩
    else ⟨cleaned⟩
  else ⟨cleaned⟩

/-! ## Thread store (mongodb_memory.py)

The MongoDB collection is a list of documents in insertion order;
`find_one`/`update_one` with filter `{"thread_id": t}` act on the first
matching document, `insert_one` appends.  A document upserted by
`update_metadata_field` lacks `user_email`, `chat` and `created_at` in
MongoDB; those absent fields are modelled by the defaults `""`, `[]` and `0`,
which is observationally equivalent for every operation in the repository
(`messages` treats a missing `chat` as `[]`, `$push` on a missing `chat`
creates a one-element array). -/

/-- One `{role, content}` entry of a document's `chat` array. -/
structure ChatEntry where
  role : String
  content : String
deriving DecidableEq, Repr

/-- One conversation document. -/
structure ThreadDoc where
  user_email : String
  thread_id : String
  chat : List ChatEntry
  metadata : List (String × String)
  created_at : Nat
  last_updated : Nat
deriving DecidableEq, Repr

abbrev Store : Type := List ThreadDoc

/-- `find_one({"thread_id": t})`. -/
def findThread (s : Store) (t : String) : Option ThreadDoc :=
  List.find? (fun d => d.thread_id == t) s

/-- `update_one({"thread_id": t}, ...)`: rewrite the first matching
document. -/
def updateFirst (s : Store) (t : String) (f : ThreadDoc → ThreadDoc) : Store :=
  match s with
  | [] => []
  | d :: rest =>
    if d.thread_id == t then f d :: rest else d :: updateFirst rest t f

/-- A langchain message, as used by this repository: `message.type` is
`"human"`, `"ai"` or `"system"`. -/
inductive BaseMessage where
  | human (content : String)
  | ai (content : String)
  | system (content : String)
deriving DecidableEq, Repr

/-- The `{role, content}` entry `add_message` stores for a message: human
content is cleaned by `add_message_content` when nonempty (empty content is
falsy in Python and skips the cleaning branch); other roles are stored
verbatim. -/
def storedEntry : BaseMessage → ChatEntry
  | .human c => ⟨"human", if c ≠ "" then add_message_content c else c⟩
  | .ai c => ⟨"ai", c⟩
  | .system c => ⟨"system", c⟩

/-- `MongoDBChatMessageHistory.add_message` (mongodb_memory.py lines 40-84):
clean a human message, then `$push` onto the existing document's `chat`
(setting `last_updated`), or insert a fresh document with a one-entry chat
and empty metadata. -/
def add_message (s : Store) (userEmail t : String) (m : BaseMessage)
    (now : Nat) : Store :=
  let entry := storedEntry m
  match findThread s t with
  | some _ =>
    updateFirst s t
      (fun d => { d with chat := d.chat ++ [entry], last_updated := now })
  | none => s ++ [⟨userEmail, t, [entry], [], now, now⟩]

/-- Parse a stored chat entry back into a message, as the `messages` property
does; entries with any other role are dropped. -/
def parseEntry (e : ChatEntry) : Option BaseMessage :=
  if e.role = "human" then some (.human e.content)
  else if e.role = "ai" then some (.ai e.content)
  else if e.role = "system" then some (.system e.content)
  else none

/-- The `messages` property (mongodb_memory.py lines 93-112): all messages of
the thread, in array order; `[]` when the thread is absent. -/
def messages (s : Store) (t : String) : List BaseMessage :=
  match findThread s t with
  | none => []
  | some d => d.chat.filterMap parseEntry

/-- `$set {"metadata.field": value}` on a metadata map: replace the value of
an existing key in place, or add the key. -/
def setField (md : List (String × String)) (k v : String) :
    List (String × String) :=
  match md with
  | [] => [(k, v)]
  | (k', v') :: rest =>
    if k' == k then (k, v) :: rest else (k', v') :: setField rest k v

/-- `MongoDBChatMessageHistory.update_metadata_field` (mongodb_memory.py
lines 114-125): `$set` one metadata field and `last_updated`, with
`upsert=True` (an absent thread gets a fresh document holding just the filter
field and the set fields; see the module comment for the defaults). -/
def update_metadata_field (s : Store) (t field value : String) (now : Nat) :
    Store :=
  match findThread s t with
  | some _ =>
    updateFirst s t
      (fun d => { d with metadata := setField d.metadata field value,
                         last_updated := now })
  | none => s ++ [⟨"", t, [], [(field, value)], 0, now⟩]

/-- Read one metadata field of a thread. -/
def metaLookup (s : Store) (t field : String) : Option String :=
  match findThread s t with
  | none => none
  | some d => d.metadata.lookup field

/-! ## Email processing (gmail_mongodb_integration.py)

`process_email` (lines 788-908) is embedded as a pure function over the
store.  External collaborators become parameters of an `Env`:
`extractEmail` models `extract_email_from_sender` (a `parseaddr` wrapper),
`agent` models `process_with_agent` — it receives the agent input and the
persisted history and either raises (`.error`) or returns the model's final
output; on success the langchain executor's memory hook appends the human
input and the AI output to the store.  `memOk = false` models
`get_mongodb_memory` returning `None` (line 809), which raises into the outer
`except` — the representative internal-error path.  The outcome records the
inputs the agent was invoked on, so "the model was never called" is the
statement `agentCalls = []`. -/

/-- The inbound email dictionary.  `id` is always present in dictionaries
built by `fetch_emails_after_time`; the other keys are read with `.get`
defaults. -/
structure EmailData where
  sender : Option String
  subject : Option String
  content : Option String
  thread_id : Option String
  id : String
deriving DecidableEq, Repr

structure Env where
  extractEmail : String → String
  agent : String → List BaseMessage → Except Unit String
  memOk : Bool
  nowIso : String
  nowT : Nat

structure ProcessResult where
  email : String
  thread_id : String
  subject : String
  response : String
deriving DecidableEq, Repr

structure ProcessOutcome where
  result : Option ProcessResult
  store : Store
  agentCalls : List String
deriving DecidableEq, Repr

/-- Fixed reply of the thread-length guard (line 819). -/
def exceededResponse : String :=
  "This conversation has exceeded the maximum number of allowed exchanges. Please start a new conversation or contact support directly for further assistance."

/-- Fixed reply when the agent invocation raises (line 864). -/
def apologyResponse : String :=
  "I'm currently experiencing technical difficulties. Our support team has been notified and will get back to you shortly."

/-- Fixed reply of the outer exception handler (line 898). -/
def errorResponse : String :=
  "I encountered an error while processing your email. Please try again or contact our support team directly."

/-- `email_data.get('thread_id', email_data.get('id'))`. -/
def emailTid (e : EmailData) : String := e.thread_id.getD e.id

/-- `response[:100] + "..." if len(response) > 100 else response`
(line 867). -/
def truncResponse (r : String) : String :=
  if 100 < r.data.length then ⟨r.data.take 100⟩ ++ "..." else r

/-- One scan step of
`re.sub(r"log_user_details\s*\(", "log_user_details(thread_id='T', ", ·)`
(lines 853-858): at each occurrence of the name followed by optional
whitespace and `(`, splice in the thread id argument; fuel-driven, the
wrapper passes the input length (each step consumes at least one
character; the pattern cannot overlap itself). -/
def injectCallsAux (tid : String) : Nat → List Char → List Char
  | _, [] => []
  | 0, s => s
  | fuel + 1, c :: rest =>
    if "log_user_details".data.isPrefixOf (c :: rest) then
      match ((c :: rest).drop 16).dropWhile pyIsSpace with
      | '(' :: rest2 =>
        ("log_user_details(thread_id='" ++ tid ++ "', ").data
          ++ injectCallsAux tid fuel rest2
      | _ => c :: injectCallsAux tid fuel rest
    else c :: injectCallsAux tid fuel rest

/-- The thread-id injection block of `process_email` (lines 850-859): only
when the response mentions `log_user_details`, the thread id is truthy, and
neither quoting style of `thread_id=...` is already present. -/
def injectThreadId (response tid : String) : String :=
  if containsSub response "log_user_details" && tid ≠ "" then
    if !containsSub response ("thread_id='" ++ tid ++ "'")
        && !containsSub response ("thread_id=\"" ++ tid ++ "\"") then
      ⟨injectCallsAux tid response.data.length response.data⟩
    else response
  else response

/-- The agent input (lines 822-830): on a brand-new thread the cleaned
content is prefixed with the sender address and thread id. -/
def agentInputOf (env : Env) (store : Store) (email : EmailData) : String :=
  let cleaned := clean_html_tags (email.content.getD "")
  if (messages store (emailTid email)).length = 0 then
    env.extractEmail (email.sender.getD "Unknown Sender")
      ++ " - Thread ID: " ++ emailTid email ++ " - \"" ++ cleaned ++ "\""
  else cleaned

/-- The four pre-agent metadata updates (lines 832-836). -/
def preAgentStore (env : Env) (store : Store) (email : EmailData) : Store :=
  let tid := emailTid email
  let s1 := update_metadata_field store tid "subject"
    (email.subject.getD "No Subject") env.nowT
  let s2 := update_metadata_field s1 tid "sender_name"
    (email.sender.getD "Unknown Sender") env.nowT
  let s3 := update_metadata_field s2 tid "last_updated" env.nowIso env.nowT
  update_metadata_field s3 tid "status" "In Progress" env.nowT

/-- The three post-response metadata updates (lines 866-869). -/
def finishStore (env : Env) (store : Store) (tid response : String) : Store :=
  let sA := update_metadata_field store tid "last_response"
    (truncResponse response) env.nowT
  let sB := update_metadata_field sA tid "last_response_time" env.nowIso
    env.nowT
  update_metadata_field sB tid "status" "Responded" env.nowT

/-- `process_email` (lines 788-908). -/
def process_email (env : Env) (store : Store) (email : EmailData) :
    ProcessOutcome :=
  let tid := emailTid email
  let subject := email.subject.getD "No Subject"
  let userEmail := env.extractEmail (email.sender.getD "Unknown Sender")
  if env.memOk = false then
    { result := some
        ⟨(match email.sender with
          | some s => env.extractEmail s
          | none => "unknown@example.com"),
         tid, email.subject.getD "Error processing email", errorResponse⟩,
      store := store, agentCalls := [] }
  else if 8 < (messages store tid).length then
    { result := some ⟨userEmail, tid, subject, exceededResponse⟩,
      store := store, agentCalls := [] }
  else
    let agentInput := agentInputOf env store email
    let s4 := preAgentStore env store email
    match env.agent agentInput (messages s4 tid) with
    | .error _ =>
      { result := some ⟨userEmail, tid, subject, apologyResponse⟩,
        store := finishStore env s4 tid apologyResponse,
        agentCalls := [agentInput] }
    | .ok output =>
      let s5 := add_message s4 userEmail tid (.human agentInput) env.nowT
      let s6 := add_message s5 userEmail tid (.ai output) env.nowT
      if pyStrip output = "NO_RESPONSE_NEEDED" then
        { result := none,
          store := update_metadata_field s6 tid "status" "Ignored" env.nowT,
          agentCalls := [agentInput] }
      else
        let response := injectThreadId output tid
        { result := some ⟨userEmail, tid, subject, response⟩,
          store := finishStore env s6 tid response,
          agentCalls := [agentInput] }

/-- The dispatch decision of `email_monitor_loop` (lines 960-978): a reply is
sent exactly when `process_email` returned a result. -/
def monitor_sends (r : Option ProcessResult) : Bool := r.isSome

/-- The subject transformation of `send_email_reply` (lines 593-594):
`'Re: ' + clean_subject if not clean_subject.lower().startswith('re:') else
clean_subject` with `clean_subject = subject.strip()`. -/
def send_email_reply_subject (subject : String) : String :=
  let c := pyStrip subject
  if "re:".data.isPrefixOf (pyLower c).data then c else "Re: " ++ c

/-! ## Sheet logging (sheets_service.py)

A sheet is a list of rows (row 0 is the header); the spreadsheet is a map
from sheet name to sheet.  The Sheets API calls are modelled by their
documented effects: `values().append` with `INSERT_ROWS` adds a row after the
last row; `values().update` at `A{n}` overwrites row `n` (1-based), writing
past the end appends; `batchUpdate` `insertRange` over row indices `[1, 2)`
inserts one blank row at index 1, shifting later rows down.  The API
transport is modelled as succeeding — its failures are caught inside each
`log_*` function in the source and turned into a `False` return, never an
exception. -/

abbrev Row : Type := List String

/-- `log_to_sheet` (sheets_service.py lines 302-373).  With at most a header
present it appends; otherwise it first overwrites row 2 with the new row and
then inserts a blank row at row 2, shifting the rest down. -/
def log_to_sheet (sheet : List Row) (row : Row) : List Row :=
  if sheet.length ≤ 1 then sheet ++ [row]
  else
    let afterUpdate := sheet.set 1 row
    afterUpdate.take 1 ++ ([] : Row) :: afterUpdate.drop 1

/-- The own-sheet write of `log_technical_issue` (lines 549-567): the row is
written at `A{len(values)+1}`, i.e. after the last existing row. -/
def log_technical_issue_insert (sheet : List Row) (row : Row) : List Row :=
  sheet ++ [row]

abbrev SheetsDb : Type := String → List Row

def dbLog (db : SheetsDb) (name : String) (row : Row) : SheetsDb :=
  fun n => if n = name then log_to_sheet (db name) row else db n

/-- Python `x if x else d` for an optional/empty string. -/
def optTruthy (o : Option String) (d : String) : String :=
  match o with
  | some s => if s = "" then d else s
  | none => d

/-- `log_certificate_issue` (lines 377-408). -/
def log_certificate_issue (db : SheetsDb)
    (app email course new_name : String) (initial : Option String)
    (status ts : String) : SheetsDb × Bool :=
  let db1 := dbLog db "Certificate_Issues" [ts, app, email, course, new_name]
  let db2 := dbLog db1 "All-Logs"
    [ts, "Certificate Issue", app, email,
     optTruthy initial "Certificate name change requested", status]
  (db2, true)

/-- `log_subscription_issue` (lines 410-441). -/
def log_subscription_issue (db : SheetsDb)
    (app email order_id : String) (initial : Option String)
    (status ts : String) : SheetsDb × Bool :=
  let db1 := dbLog db "Subscription_Issues" [ts, app, email, order_id, status]
  let db2 := dbLog db1 "All-Logs"
    [ts, "Subscription Issue", app, email,
     optTruthy initial "Subscription activation issue", status]
  (db2, true)

/-- `log_payment_issue` (lines 443-475). -/
def log_payment_issue (db : SheetsDb)
    (app email : String) (initial country : Option String)
    (status ts : String) : SheetsDb × Bool :=
  let db1 := dbLog db "Payment_Issues"
    [ts, app, email, optTruthy country "Not provided",
     optTruthy initial "Payment processing issue", status]
  let db2 := dbLog db1 "All-Logs"
    [ts, "Payment Issue", app, email,
     optTruthy initial "Payment processing issue", status]
  (db2, true)

/-- `log_refund_request` (lines 688-719). -/
def log_refund_request (db : SheetsDb)
    (app email order_id : String) (initial : Option String)
    (status ts : String) : SheetsDb × Bool :=
  let db1 := dbLog db "Refund" [ts, app, email, order_id, status]
  let db2 := dbLog db1 "All-Logs"
    [ts, "Refund Request", app, email,
     optTruthy initial "Customer requested refund", status]
  (db2, true)

/-- `log_account_deletion` (lines 721-751). -/
def log_account_deletion (db : SheetsDb)
    (app email : String) (initial : Option String)
    (status ts : String) : SheetsDb × Bool :=
  let db1 := dbLog db "Account_Deletion" [ts, app, email, status]
  let db2 := dbLog db1 "All-Logs"
    [ts, "Account Deletion", app, email,
     optTruthy initial "Account deletion requested", status]
  (db2, true)

/-- `log_technical_issue` (lines 477-603).  The screenshot URLs come from the
thread's MongoDB metadata; that lookup is itself wrapped in a `try/except`
that leaves the list empty on any failure, so it is modelled as the
already-resolved `screenshots` parameter. -/
def log_technical_issue (db : SheetsDb)
    (app email issue_description : String)
    (device os_version app_version : Option String)
    (status : String) (screenshots : List String) (ts : String) :
    SheetsDb × Bool :=
  let screenshots_text :=
    if screenshots ≠ [] then String.intercalate "\n" screenshots
    else "See screenshots column"
  let tech : Row :=
    [ts, app, email, issue_description,
     optTruthy device "Not provided", optTruthy os_version "Not provided",
     optTruthy app_version "Not provided", screenshots_text]
  let db1 : SheetsDb := fun n =>
    if n = "Technical_Issues" then
      log_technical_issue_insert (db "Technical_Issues") tech
    else db n
  let db2 := dbLog db1 "All-Logs"
    [ts, "Technical Issue", app, email, issue_description, status]
  (db2, true)

/-! ## Tool handlers (agent_main_with_mongodb.py)

Each handler's external actions (HTTP calls, filesystem) are oracle
parameters; an action that would raise is an `.exn`/`.error` outcome.  The
handler's return type is `Except String String`: `.ok` is a returned string,
`.error` is an exception propagating out of the handler to the agent
executor. -/

/-- Outcome of the certificate try-block's external actions (HTTP POST plus
file write, lines 130-141): either some step raised, or the request completed
with a status code (a 200 outcome includes the successful file write, which
sits in the same try). -/
inductive ApiOutcome where
  | exn (msg : String)
  | done (status : Nat)
deriving DecidableEq, Repr

/-- `print_order_details` (lines 78-92): pure, returns a fixed-format
string. -/
def print_order_details (orderid _emailid : String) : Except String String :=
  .ok ("I've retrieved the order details for order ID " ++ orderid ++
    ". The order is currently shipped and should be delivered by March 15, 2025. The order contains the Python Programming 101 course and course handbook. Total: $199.99.")

def underscoreSpaces (s : String) : String :=
  ⟨s.data.map (fun c => if c = ' ' then '_' else c)⟩

/-- The certificate output filename (line 109). -/
def certFilename (certPath userName courseName timestamp : String) : String :=
  certPath ++ "/certificate_" ++ underscoreSpaces userName ++ "_"
    ++ underscoreSpaces courseName ++ "_" ++ timestamp ++ ".pdf"

/-- `generate_certificate` (lines 94-153): the entire body, `os.makedirs`
included, sits in one `try`; every raise becomes the error-string return of
the `except` clause. -/
def generate_certificate (userName courseName certPath timestamp : String)
    (api : ApiOutcome) : Except String String :=
  match api with
  | .done code =>
    if code = 200 then
      .ok ("Certificate generation successful. A new certificate for '"
        ++ userName ++ "' for the course '" ++ courseName
        ++ "' has been generated and saved as '"
        ++ certFilename certPath userName courseName timestamp
        ++ "'. The certificate is ready for download and has also been emailed to the user's registered email address.")
    else
      .ok ("Certificate generation failed: API returned status code "
        ++ toString code ++ ". Please try again later or contact support.")
  | .exn e =>
    .ok ("Certificate generation failed with error: " ++ e
      ++ ". Please ask the user to try again later or contact technical support.")

/-- External actions of `generate_certificates`: the `os.makedirs` call
(line 176, outside any try/except) and the per-course API call (inside the
per-course try). -/
structure CertsEnv where
  makedirs : Except String Unit
  api : String → ApiOutcome

/-- `generate_certificates` (lines 155-242).  Note that `os.makedirs` runs
before the loop and outside any `try`; if it raises, the exception leaves the
handler. -/
def generate_certificates (userName : String) (courseNames : List String)
    (env : CertsEnv) : Except String String :=
  if courseNames = [] then
    .ok "No courses specified for certificate generation."
  else
    match env.makedirs with
    | .error e => .error e
    | .ok _ =>
      let isOk := fun c =>
        match env.api c with
        | .done 200 => true
        | _ => false
      let successes := courseNames.filter isOk
      let failures := courseNames.filter (fun c => !isOk c)
      if successes ≠ [] && failures.isEmpty then
        .ok ("Certificate generation successful. "
          ++ toString successes.length ++ " certificates for '" ++ userName
          ++ "' have been generated for the following courses: "
          ++ String.intercalate ", " successes
          ++ ". The certificates are ready for download and have also been emailed to your registered email address.")
      else if successes ≠ [] && !failures.isEmpty then
        .ok ("Partial success. Certificates were generated for these courses: "
          ++ String.intercalate ", " successes
          ++ ". However, we encountered issues with these courses: "
          ++ String.intercalate ", " failures
          ++ ". The successful certificates are ready for download and have been emailed to your registered email address.")
      else
        .ok "Certificate generation failed for all courses. Please try again later or contact support."

/-- Outcome of the premium-activation request (lines 272-278): a
network-level raise (`requests.exceptions.RequestException`), any other
raise, or a completed response whose `.json()` parse either raises or yields
an optional `message` field. -/
inductive PremiumOutcome where
  | reqExn (e : String)
  | otherExn (e : String)
  | resp (status : Nat) (json : Except String (Option String))
deriving Repr

/-- `activate_premium` (lines 244-296): two `except` clauses convert every
raise into a failure string; `response.json()` runs before the status check,
so a JSON parse error on any status lands in the generic `except`. -/
def activate_premium (emailid appName : String) (o : PremiumOutcome) :
    Except String String :=
  match o with
  | .reqExn e =>
    .ok ("Premium activation failed: Error connecting to the activation service: "
      ++ e ++ ". Please check your internet connection and try again later.")
  | .otherExn e =>
    .ok ("Premium activation failed with error: Error activating premium: "
      ++ e ++ ". Please try again later or contact technical support.")
  | .resp status json =>
    match json with
    | .error e =>
      .ok ("Premium activation failed with error: Error activating premium: "
        ++ e ++ ". Please try again later or contact technical support.")
    | .ok msgField =>
      if status = 200 then
        .ok ("Premium access has been successfully activated for " ++ emailid
          ++ " on " ++ appName
          ++ ". The premium features will be available immediately, and the subscription is valid for 12 months.")
      else
        .ok ("Premium activation failed: " ++ msgField.getD "Unknown error"
          ++ ". Please try again later.")

/-- `log_user_details` (agent_main_with_mongodb.py lines 298-453): dispatch
on the issue type to the sheet loggers (all of which catch their own
failures), then return the unconditional confirmation string.  The function
body contains no `try` of its own and nothing that raises. -/
def log_user_details (db : SheetsDb) (issue_type app_name : String)
    (initial_message : String)
    (new_name course_name email order_id device os_version app_version
      country status : Option String)
    (screenshots : List String) (ts : String) :
    SheetsDb × Except String String :=
  let statusV := status.getD "Open"
  let emailV := optTruthy email "Not provided"
  let db' :=
    if issue_type = "Certificate Issue" then
      (log_certificate_issue db app_name emailV
        (optTruthy course_name "Not provided")
        (optTruthy new_name "Not provided") (some initial_message) statusV
        ts).1
    else if issue_type = "Premium Access" || issue_type = "Subscription Issue"
    then
      (log_subscription_issue db app_name emailV
        (optTruthy order_id "Not provided") (some initial_message) statusV
        ts).1
    else if issue_type = "Refund Request" || issue_type = "Refund" then
      (log_refund_request db app_name emailV
        (optTruthy order_id "Not provided") (some initial_message) statusV
        ts).1
    else if issue_type = "Technical Issue" then
      (log_technical_issue db app_name emailV initial_message device
        os_version app_version statusV screenshots ts).1
    else if issue_type = "Payment Issue" then
      (log_payment_issue db app_name emailV (some initial_message) country
        statusV ts).1
    else if issue_type = "Account Deletion" then
      (log_account_deletion db app_name emailV (some initial_message) statusV
        ts).1
    else if issue_type = "Order Inquiry" then
      dbLog db "All-Logs"
        [ts, "Order Inquiry", app_name, emailV, initial_message, statusV]
    else
      dbLog db "All-Logs"
        [ts, issue_type, app_name, emailV, initial_message, statusV]
  (db', .ok ("User details for " ++ issue_type
    ++ " have been logged successfully."))

/-! ## Store lemmas -/

/-- The chat array of a thread, `[]` when the thread is absent. -/
def threadChat (s : Store) (t : String) : List ChatEntry :=
  match findThread s t with
  | none => []
  | some d => d.chat

theorem messages_eq_threadChat (s : Store) (t : String) :
    messages s t = (threadChat s t).filterMap parseEntry := by
  unfold messages threadChat
  cases findThread s t <;> simp

theorem findThread_nil (t : String) : findThread [] t = none := rfl

theorem findThread_cons (d : ThreadDoc) (s : Store) (t : String) :
    findThread (d :: s) t =
      if d.thread_id == t then some d else findThread s t := by
  unfold findThread
  by_cases h : d.thread_id == t <;> simp [List.find?_cons, h]

theorem findThread_append_single (s : Store) (t : String) (d : ThreadDoc) :
    findThread (s ++ [d]) t =
      match findThread s t with
      | some x => some x
      | none => if d.thread_id == t then some d else none := by
  induction s with
  | nil => simp [findThread_nil, findThread_cons]
  | cons a rest ih =>
    by_cases h : a.thread_id == t <;>
      simp [findThread_cons, h, ih]

theorem updateFirst_cons (a : ThreadDoc) (rest : Store) (t : String)
    (f : ThreadDoc → ThreadDoc) :
    updateFirst (a :: rest) t f =
      if a.thread_id == t then f a :: rest else a :: updateFirst rest t f :=
  rfl

theorem findThread_updateFirst_self (s : Store) (t : String)
    (f : ThreadDoc → ThreadDoc) (hf : ∀ x, (f x).thread_id = x.thread_id)
    (d : ThreadDoc) (h : findThread s t = some d) :
    findThread (updateFirst s t f) t = some (f d) := by
  induction s with
  | nil => simp [findThread_nil] at h
  | cons a rest ih =>
    rw [findThread_cons] at h
    by_cases ha : (a.thread_id == t) = true
    · rw [if_pos ha] at h
      injection h with h2
      subst h2
      have hft : ((f a).thread_id == t) = true := by rw [hf a]; exact ha
      rw [updateFirst_cons, if_pos ha, findThread_cons, if_pos hft]
    · rw [if_neg ha] at h
      rw [updateFirst_cons, if_neg ha, findThread_cons, if_neg ha]
      exact ih h

theorem findThread_updateFirst_other (s : Store) (t t' : String)
    (f : ThreadDoc → ThreadDoc) (hf : ∀ x, (f x).thread_id = x.thread_id)
    (hne : t' ≠ t) :
    findThread (updateFirst s t' f) t = findThread s t := by
  induction s with
  | nil => rfl
  | cons a rest ih =>
    by_cases ha : (a.thread_id == t') = true
    · have haeq : a.thread_id = t' := by simpa using ha
      have hat : (a.thread_id == t) = false := by
        simp [haeq]
        exact hne
      have hft : ((f a).thread_id == t) = false := by rw [hf a]; exact hat
      rw [updateFirst_cons, if_pos ha, findThread_cons, if_neg (by simp [hft]),
        findThread_cons, if_neg (by simp [hat])]
    · rw [updateFirst_cons, if_neg ha, findThread_cons, findThread_cons, ih]

theorem add_message_chat_self (s : Store) (u t : String) (m : BaseMessage)
    (now : Nat) :
    threadChat (add_message s u t m now) t =
      threadChat s t ++ [storedEntry m] := by
  unfold add_message
  cases hf : findThread s t with
  | none =>
    have hfind := findThread_append_single s t
      ⟨u, t, [storedEntry m], [], now, now⟩
    rw [hf] at hfind
    simp at hfind
    simp [threadChat, hf, hfind]
  | some d =>
    have hfind := findThread_updateFirst_self s t
      (fun d => { d with chat := d.chat ++ [storedEntry m],
                         last_updated := now })
      (fun _ => rfl) d hf
    simp [threadChat, hf, hfind]

theorem add_message_find_other (s : Store) (u t' : String) (m : BaseMessage)
    (now : Nat) (t : String) (hne : t' ≠ t) :
    findThread (add_message s u t' m now) t = findThread s t := by
  unfold add_message
  cases hf : findThread s t' with
  | none =>
    have hfind := findThread_append_single s t
      ⟨u, t', [storedEntry m], [], now, now⟩
    have : ((⟨u, t', [storedEntry m], [], now, now⟩ :
        ThreadDoc).thread_id == t) = false := by
      simp
      exact hne
    rw [this] at hfind
    simp at hfind
    rw [hfind]
    cases findThread s t <;> simp
  | some d =>
    exact findThread_updateFirst_other s t t' _ (fun _ => rfl) hne

/-- Reading another thread's chat is unchanged by an append. -/
theorem add_message_chat_other (s : Store) (u t' : String) (m : BaseMessage)
    (now : Nat) (t : String) (hne : t' ≠ t) :
    threadChat (add_message s u t' m now) t = threadChat s t := by
  unfold threadChat
  rw [add_message_find_other s u t' m now t hne]

/-! ## Claim C1: appends are never lost or reordered -/

/-- One `add_message` call: target thread, owner, message, timestamp. -/
structure AppendOp where
  userEmail : String
  tid : String
  msg : BaseMessage
  now : Nat
deriving DecidableEq, Repr

/-- A sequence of `add_message` calls, possibly interleaving threads. -/
def runAppends (s : Store) (ops : List AppendOp) : Store :=
  ops.foldl (fun st op => add_message st op.userEmail op.tid op.msg op.now) s

/-- How a message read back through `messages` relates to the message that
was appended: human content is cleaned on write, other roles round-trip. -/
def storedView : BaseMessage → BaseMessage
  | .human c => .human (if c ≠ "" then add_message_content c else c)
  | .ai c => .ai c
  | .system c => .system c

theorem parse_storedEntry (m : BaseMessage) :
    parseEntry (storedEntry m) = some (storedView m) := by
  cases m <;> rfl

theorem filterMap_parse_stored (l : List AppendOp) :
    (l.map (fun op => storedEntry op.msg)).filterMap parseEntry =
      l.map (fun op => storedView op.msg) := by
  induction l with
  | nil => rfl
  | cons m rest ih => simp [parse_storedEntry, ih]

theorem runAppends_chat (t : String) (ops : List AppendOp) :
    ∀ s : Store,
      threadChat (runAppends s ops) t =
        threadChat s t
          ++ (ops.filter (fun op => op.tid == t)).map
              (fun op => storedEntry op.msg) := by
  induction ops with
  | nil => intro s; simp [runAppends]
  | cons op rest ih =>
    intro s
    have hstep : runAppends s (op :: rest) =
        runAppends (add_message s op.userEmail op.tid op.msg op.now) rest :=
      rfl
    rw [hstep, ih]
    by_cases hop : (op.tid == t) = true
    · have heq : op.tid = t := by simpa using hop
      rw [heq, add_message_chat_self]
      simp [hop]
    · have hne : op.tid ≠ t := by simpa using hop
      rw [add_message_chat_other s op.userEmail op.tid op.msg op.now t hne]
      simp [hop]

/-- C1.  For every sequence of appends (interleaved across threads or not)
starting from a store in which thread `t` is absent, reading thread `t`
afterward returns exactly one message per append to `t`, in append order
(each human message in its stored, cleaned form); and reading an absent
thread returns the empty sequence. -/
theorem C1_read_all_returns_all_appends (init : Store) (t : String)
    (ops : List AppendOp) (h : findThread init t = none) :
    messages init t = [] ∧
    messages (runAppends init ops) t =
      (ops.filter (fun op => op.tid == t)).map (fun op => storedView op.msg) ∧
    (messages (runAppends init ops) t).length =
      (ops.filter (fun op => op.tid == t)).length := by
  have hchat : threadChat init t = [] := by
    unfold threadChat
    rw [h]
  have hmain : messages (runAppends init ops) t =
      (ops.filter (fun op => op.tid == t)).map
        (fun op => storedView op.msg) := by
    rw [messages_eq_threadChat, runAppends_chat t ops init, hchat,
      List.nil_append, filterMap_parse_stored]
  refine ⟨?_, hmain, ?_⟩
  · rw [messages_eq_threadChat, hchat]
    rfl
  · rw [hmain]
    simp

/-- Concrete instance of C1: three appends, two of them to thread `"t1"`
interleaved with one to `"t2"`, starting from the empty store. -/
def c1Ops : List AppendOp :=
  [⟨"u@x.com", "t1", .human "Hi <b>there</b>", 0⟩,
   ⟨"v@x.com", "t2", .ai "other thread", 1⟩,
   ⟨"u@x.com", "t1", .ai "Hello! How can I help?", 2⟩]

theorem C1_witness :
    findThread ([] : Store) "t1" = none ∧
    (messages ([] : Store) "t1" = [] ∧
     messages (runAppends ([] : Store) c1Ops) "t1" =
       ((c1Ops.filter (fun op => op.tid == "t1")).map
         (fun op => storedView op.msg)) ∧
     (messages (runAppends ([] : Store) c1Ops) "t1").length =
       (c1Ops.filter (fun op => op.tid == "t1")).length) :=
  ⟨rfl, C1_read_all_returns_all_appends [] "t1" c1Ops rfl⟩

/-! ## Claim C5: field-level metadata updates -/

theorem lookup_setField_self (md : List (String × String)) (k v : String) :
    (setField md k v).lookup k = some v := by
  induction md with
  | nil => simp [setField, List.lookup]
  | cons p rest ih =>
    obtain ⟨k', v'⟩ := p
    by_cases h : k' = k
    · subst h
      simp [setField, List.lookup]
    · have h1 : (k' == k) = false := by simpa using h
      have h2 : (k == k') = false := by simpa using Ne.symm h
      simp [setField, h1, List.lookup, h2, ih]

theorem lookup_setField_other (md : List (String × String)) (k v g : String)
    (hg : g ≠ k) :
    (setField md k v).lookup g = md.lookup g := by
  have hgk : (g == k) = false := by simpa using hg
  induction md with
  | nil => simp [setField, List.lookup, hgk]
  | cons p rest ih =>
    obtain ⟨k', v'⟩ := p
    by_cases h : k' = k
    · subst h
      simp [setField, List.lookup, hgk]
    · have h1 : (k' == k) = false := by simpa using h
      simp [setField, h1, List.lookup, ih]

theorem umf_find_self (s : Store) (t f v : String) (n : Nat) :
    findThread (update_metadata_field s t f v n) t =
      match findThread s t with
      | some d => some { d with metadata := setField d.metadata f v,
                                last_updated := n }
      | none => some ⟨"", t, [], [(f, v)], 0, n⟩ := by
  unfold update_metadata_field
  cases hf : findThread s t with
  | none =>
    dsimp only
    have hfind := findThread_append_single s t ⟨"", t, [], [(f, v)], 0, n⟩
    rw [hf] at hfind
    simpa using hfind
  | some d =>
    dsimp only
    exact findThread_updateFirst_self s t
      (fun d => { d with metadata := setField d.metadata f v,
                         last_updated := n }) (fun _ => rfl) d hf

theorem umf_meta_self (s : Store) (t f v : String) (n : Nat) :
    metaLookup (update_metadata_field s t f v n) t f = some v := by
  unfold metaLookup
  rw [umf_find_self]
  cases findThread s t with
  | none => simp [List.lookup]
  | some d => simp [lookup_setField_self]

theorem umf_meta_other (s : Store) (t f v g : String) (n : Nat)
    (hg : g ≠ f) :
    metaLookup (update_metadata_field s t f v n) t g = metaLookup s t g := by
  unfold metaLookup
  rw [umf_find_self]
  cases findThread s t with
  | none =>
    have : (g == f) = false := by simpa using hg
    simp [List.lookup, this]
  | some d => simp [lookup_setField_other _ _ _ _ hg]

theorem umf_last_updated (s : Store) (t f v : String) (n : Nat)
    (d : ThreadDoc)
    (h : findThread (update_metadata_field s t f v n) t = some d) :
    d.last_updated = n := by
  rw [umf_find_self] at h
  cases hfs : findThread s t with
  | none =>
    rw [hfs] at h
    simp at h
    rw [← h]
  | some d' =>
    rw [hfs] at h
    simp at h
    rw [← h]

/-- C5.  `update_metadata_field` upserts the thread, sets exactly the given
field to the given value, touches `last_updated`, and leaves every other
metadata field unchanged; consequently setting `"status"` and then
`"subject"` leaves both fields present with their written values. -/
theorem C5_set_metadata_field_frame (s : Store) (t f v g w : String)
    (n n' : Nat) (hg : g ≠ f) :
    (findThread (update_metadata_field s t f v n) t).isSome = true ∧
    metaLookup (update_metadata_field s t f v n) t f = some v ∧
    metaLookup (update_metadata_field s t f v n) t g = metaLookup s t g ∧
    (∀ d, findThread (update_metadata_field s t f v n) t = some d →
      d.last_updated = n) ∧
    metaLookup
      (update_metadata_field (update_metadata_field s t "status" v n) t
        "subject" w n') t "status" = some v ∧
    metaLookup
      (update_metadata_field (update_metadata_field s t "status" v n) t
        "subject" w n') t "subject" = some w := by
  refine ⟨?_, umf_meta_self s t f v n, umf_meta_other s t f v g n hg,
    fun d hd => umf_last_updated s t f v n d hd, ?_, ?_⟩
  · rw [umf_find_self]
    cases findThread s t <;> simp
  · rw [umf_meta_other _ _ _ _ _ _ (by decide)]
    exact umf_meta_self s t "status" v n
  · exact umf_meta_self _ t "subject" w n'

theorem C5_witness :
    "subject" ≠ "status" ∧
    ((findThread (update_metadata_field [] "t1" "status" "Responded" 3)
        "t1").isSome = true ∧
     metaLookup (update_metadata_field [] "t1" "status" "Responded" 3) "t1"
        "status" = some "Responded" ∧
     metaLookup (update_metadata_field [] "t1" "status" "Responded" 3) "t1"
        "subject" = metaLookup [] "t1" "subject" ∧
     (∀ d, findThread (update_metadata_field [] "t1" "status" "Responded" 3)
        "t1" = some d → d.last_updated = 3) ∧
     metaLookup
       (update_metadata_field
         (update_metadata_field [] "t1" "status" "Responded" 3) "t1"
         "subject" "X" 4) "t1" "status" = some "Responded" ∧
     metaLookup
       (update_metadata_field
         (update_metadata_field [] "t1" "status" "Responded" 3) "t1"
         "subject" "X" 4) "t1" "subject" = some "X") :=
  ⟨by decide,
   C5_set_metadata_field_frame [] "t1" "status" "Responded" "subject" "X" 3 4
     (by decide)⟩

/-! ## Claims C2 and C9: the thread-length guard -/

/-- Evaluation of `process_email` when the stored history exceeds eight
messages: the fixed reply, no store writes, no agent call. -/
theorem process_email_guard (env : Env) (store : Store) (email : EmailData)
    (hmem : env.memOk = true)
    (hlen : 8 < (messages store (emailTid email)).length) :
    process_email env store email =
      { result := some ⟨env.extractEmail (email.sender.getD "Unknown Sender"),
          emailTid email, email.subject.getD "No Subject",
          exceededResponse⟩,
        store := store, agentCalls := [] } := by
  simp only [process_email]
  rw [hmem]
  simp [hlen]

/-- C2.  When the persisted history of the thread already exceeds eight
messages, `process_email` returns the fixed "conversation exceeded" reply
and the model is never invoked (the recorded agent-call list is empty, for
every possible agent). -/
theorem C2_guard_short_circuits (env : Env) (store : Store)
    (email : EmailData) (hmem : env.memOk = true)
    (hlen : 8 < (messages store (emailTid email)).length) :
    (process_email env store email).result =
      some ⟨env.extractEmail (email.sender.getD "Unknown Sender"),
        emailTid email, email.subject.getD "No Subject", exceededResponse⟩ ∧
    (process_email env store email).agentCalls = [] := by
  rw [process_email_guard env store email hmem hlen]
  exact ⟨rfl, rfl⟩

/-- C9.  When the thread-length guard fires, `process_email` performs no
write at all: the store — every thread document included — is identical
before and after the call. -/
theorem C9_guard_writes_nothing (env : Env) (store : Store)
    (email : EmailData) (hmem : env.memOk = true)
    (hlen : 8 < (messages store (emailTid email)).length) :
    (process_email env store email).store = store := by
  rw [process_email_guard env store email hmem hlen]

/-- A nine-message thread document for the guard witnesses. -/
def wStore9 : Store :=
  [⟨"u@x.com", "t9", List.replicate 9 ⟨"human", "m"⟩, [], 0, 0⟩]

def wEnv : Env :=
  { extractEmail := fun s => s,
    agent := fun _ _ => .ok "reply",
    memOk := true, nowIso := "2025-01-01T00:00:00", nowT := 5 }

def wEmail9 : EmailData :=
  ⟨some "u@x.com", some "Help", some "body", some "t9", "id1"⟩

theorem C2_witness :
    (wEnv.memOk = true ∧ 8 < (messages wStore9 (emailTid wEmail9)).length) ∧
    ((process_email wEnv wStore9 wEmail9).result =
      some ⟨wEnv.extractEmail (wEmail9.sender.getD "Unknown Sender"),
        emailTid wEmail9, wEmail9.subject.getD "No Subject",
        exceededResponse⟩ ∧
     (process_email wEnv wStore9 wEmail9).agentCalls = []) :=
  ⟨⟨rfl, by decide⟩,
   C2_guard_short_circuits wEnv wStore9 wEmail9 rfl (by decide)⟩

theorem C9_witness :
    (wEnv.memOk = true ∧ 8 < (messages wStore9 (emailTid wEmail9)).length) ∧
    (process_email wEnv wStore9 wEmail9).store = wStore9 :=
  ⟨⟨rfl, by decide⟩, C9_guard_writes_nothing wEnv wStore9 wEmail9 rfl
    (by decide)⟩

/-! ## Claim C3: the NO_RESPONSE_NEEDED sentinel -/

theorem pyStrip_sentinel : pyStrip "NO_RESPONSE_NEEDED" = "NO_RESPONSE_NEEDED" := by
  decide

/-- Evaluation of `process_email` when the agent's final answer is the
sentinel (guard not fired, memory available). -/
theorem process_email_sentinel (env : Env) (store : Store)
    (email : EmailData) (hmem : env.memOk = true)
    (hlen : ¬ 8 < (messages store (emailTid email)).length)
    (hagent : ∀ i h', env.agent i h' = Except.ok "NO_RESPONSE_NEEDED") :
    process_email env store email =
      { result := none,
        store := update_metadata_field
          (add_message
            (add_message (preAgentStore env store email)
              (env.extractEmail (email.sender.getD "Unknown Sender"))
              (emailTid email) (.human (agentInputOf env store email))
              env.nowT)
            (env.extractEmail (email.sender.getD "Unknown Sender"))
            (emailTid email) (.ai "NO_RESPONSE_NEEDED") env.nowT)
          (emailTid email) "status" "Ignored" env.nowT,
        agentCalls := [agentInputOf env store email] } := by
  simp only [process_email]
  rw [hmem]
  simp [hlen, hagent, pyStrip_sentinel]

/-- C3.  If the model's final answer is exactly `NO_RESPONSE_NEEDED`,
`process_email` returns no result, the monitor loop therefore sends no
reply, and the thread's metadata `status` ends as `"Ignored"`. -/
theorem C3_sentinel_suppresses_reply (env : Env) (store : Store)
    (email : EmailData) (hmem : env.memOk = true)
    (hlen : ¬ 8 < (messages store (emailTid email)).length)
    (hagent : ∀ i h', env.agent i h' = Except.ok "NO_RESPONSE_NEEDED") :
    (process_email env store email).result = none ∧
    monitor_sends (process_email env store email).result = false ∧
    metaLookup (process_email env store email).store (emailTid email)
      "status" = some "Ignored" := by
  rw [process_email_sentinel env store email hmem hlen hagent]
  exact ⟨rfl, rfl, umf_meta_self _ _ _ _ _⟩

def wEnvSentinel : Env :=
  { extractEmail := fun s => s,
    agent := fun _ _ => .ok "NO_RESPONSE_NEEDED",
    memOk := true, nowIso := "2025-01-01T00:00:00", nowT := 5 }

theorem C3_witness :
    (wEnvSentinel.memOk = true ∧
     ¬ 8 < (messages ([] : Store) (emailTid wEmail9)).length ∧
     ∀ i h', wEnvSentinel.agent i h' = Except.ok "NO_RESPONSE_NEEDED") ∧
    ((process_email wEnvSentinel [] wEmail9).result = none ∧
     monitor_sends (process_email wEnvSentinel [] wEmail9).result = false ∧
     metaLookup (process_email wEnvSentinel [] wEmail9).store
       (emailTid wEmail9) "status" = some "Ignored") :=
  ⟨⟨rfl, by decide, fun _ _ => rfl⟩,
   C3_sentinel_suppresses_reply wEnvSentinel [] wEmail9 rfl (by decide)
     (fun _ _ => rfl)⟩

/-! ## Claim C6: every path produces a reply -/

/-- The history handed to the agent. -/
def agentHist (env : Env) (store : Store) (email : EmailData) :
    List BaseMessage :=
  messages (preAgentStore env store email) (emailTid email)

/-- Evaluation of `process_email` when memory creation fails. -/
theorem process_email_memfail (env : Env) (store : Store) (email : EmailData)
    (hmem : env.memOk = false) :
    process_email env store email =
      { result := some
          ⟨(match email.sender with
            | some s => env.extractEmail s
            | none => "unknown@example.com"),
           emailTid email, email.subject.getD "Error processing email",
           errorResponse⟩,
        store := store, agentCalls := [] } := by
  simp only [process_email]
  rw [hmem]
  simp

/-- Evaluation of `process_email` when the agent invocation raises. -/
theorem process_email_agent_raises (env : Env) (store : Store)
    (email : EmailData) (hmem : env.memOk = true)
    (hlen : ¬ 8 < (messages store (emailTid email)).length)
    (hag : env.agent (agentInputOf env store email)
      (agentHist env store email) = .error ()) :
    process_email env store email =
      { result := some ⟨env.extractEmail (email.sender.getD "Unknown Sender"),
          emailTid email, email.subject.getD "No Subject", apologyResponse⟩,
        store := finishStore env (preAgentStore env store email)
          (emailTid email) apologyResponse,
        agentCalls := [agentInputOf env store email] } := by
  simp only [process_email]
  rw [hmem]
  simp only [agentHist] at hag
  simp [hlen, hag]

/-- Evaluation of `process_email` when the agent returns a non-sentinel
output. -/
theorem process_email_normal (env : Env) (store : Store) (email : EmailData)
    (hmem : env.memOk = true)
    (hlen : ¬ 8 < (messages store (emailTid email)).length) (o : String)
    (hag : env.agent (agentInputOf env store email)
      (agentHist env store email) = .ok o)
    (hs : pyStrip o ≠ "NO_RESPONSE_NEEDED") :
    process_email env store email =
      { result := some ⟨env.extractEmail (email.sender.getD "Unknown Sender"),
          emailTid email, email.subject.getD "No Subject",
          injectThreadId o (emailTid email)⟩,
        store := finishStore env
          (add_message
            (add_message (preAgentStore env store email)
              (env.extractEmail (email.sender.getD "Unknown Sender"))
              (emailTid email) (.human (agentInputOf env store email))
              env.nowT)
            (env.extractEmail (email.sender.getD "Unknown Sender"))
            (emailTid email) (.ai o) env.nowT)
          (emailTid email) (injectThreadId o (emailTid email)),
        agentCalls := [agentInputOf env store email] } := by
  simp only [process_email]
  rw [hmem]
  simp only [agentHist] at hag
  simp [hlen, hag, hs]

/-- C6 (amended).  `process_email` returns a reply on every path except
exactly the sentinel: a `none` result only arises from an agent success whose
stripped output is `NO_RESPONSE_NEEDED`; when memory creation fails the
reply is the fixed (nonempty) error message; when the agent raises the reply
is the fixed (nonempty) apology; on the normal path the reply is the agent's
own output (after thread-id injection), which is empty exactly when the
model's non-sentinel output is empty. -/
theorem C6_reply_or_sentinel (env : Env) (store : Store)
    (email : EmailData) :
    ((process_email env store email).result = none →
      env.memOk = true ∧
      ¬ 8 < (messages store (emailTid email)).length ∧
      ∃ o, env.agent (agentInputOf env store email)
          (agentHist env store email) = .ok o ∧
        pyStrip o = "NO_RESPONSE_NEEDED") ∧
    (env.memOk = false →
      ∃ r, (process_email env store email).result = some r ∧
        r.response = errorResponse) ∧
    (env.memOk = true → 8 < (messages store (emailTid email)).length →
      ∃ r, (process_email env store email).result = some r ∧
        r.response = exceededResponse) ∧
    (env.memOk = true → ¬ 8 < (messages store (emailTid email)).length →
      env.agent (agentInputOf env store email) (agentHist env store email) =
        .error () →
      ∃ r, (process_email env store email).result = some r ∧
        r.response = apologyResponse) ∧
    (env.memOk = true → ¬ 8 < (messages store (emailTid email)).length →
      ∀ o, env.agent (agentInputOf env store email)
          (agentHist env store email) = .ok o →
        pyStrip o ≠ "NO_RESPONSE_NEEDED" →
        ∃ r, (process_email env store email).result = some r ∧
          r.response = injectThreadId o (emailTid email)) := by
  refine ⟨?_, ?_, ?_, ?_, ?_⟩
  · intro hnone
    by_cases hmem : env.memOk = true
    · by_cases hlen : 8 < (messages store (emailTid email)).length
      · rw [process_email_guard env store email hmem hlen] at hnone
        simp at hnone
      · refine ⟨hmem, hlen, ?_⟩
        cases hag : env.agent (agentInputOf env store email)
            (agentHist env store email) with
        | error e =>
          cases e
          rw [process_email_agent_raises env store email hmem hlen hag]
            at hnone
          simp at hnone
        | ok o =>
          by_cases hs : pyStrip o = "NO_RESPONSE_NEEDED"
          · exact ⟨o, rfl, hs⟩
          · rw [process_email_normal env store email hmem hlen o hag hs]
              at hnone
            simp at hnone
    · have hmf : env.memOk = false := by
        revert hmem
        cases env.memOk <;> simp
      rw [process_email_memfail env store email hmf] at hnone
      simp at hnone
  · intro hmf
    rw [process_email_memfail env store email hmf]
    exact ⟨_, rfl, rfl⟩
  · intro hmem hlen
    rw [process_email_guard env store email hmem hlen]
    exact ⟨_, rfl, rfl⟩
  · intro hmem hlen hag
    rw [process_email_agent_raises env store email hmem hlen hag]
    exact ⟨_, rfl, rfl⟩
  · intro hmem hlen o hag hs
    rw [process_email_normal env store email hmem hlen o hag hs]
    exact ⟨_, rfl, rfl⟩

/-- Counterexample to C6 as stated: an agent whose non-sentinel final answer
is the empty string.  `process_email` passes it through, so a reply is
"produced" but it is empty — not the promised non-empty reply — and this is
not the sentinel case. -/
def c6Env : Env :=
  { extractEmail := fun s => s, agent := fun _ _ => .ok "",
    memOk := true, nowIso := "2025-01-01T00:00:00", nowT := 5 }

def c6Email : EmailData :=
  ⟨some "u@x.com", some "Hi", some "hello", some "t1", "id1"⟩

theorem C6_counterexample :
    ((process_email c6Env [] c6Email).result.map
      (fun r => r.response)) = some "" ∧
    pyStrip "" ≠ "NO_RESPONSE_NEEDED" := by
  constructor
  · decide
  · decide

theorem C6_witness :
    (c6Env.memOk = true ∧
     ¬ 8 < (messages ([] : Store) (emailTid c6Email)).length ∧
     c6Env.agent (agentInputOf c6Env [] c6Email)
       (agentHist c6Env [] c6Email) = .ok "" ∧
     pyStrip "" ≠ "NO_RESPONSE_NEEDED") ∧
    (∃ r, (process_email c6Env [] c6Email).result = some r ∧
      r.response = injectThreadId "" (emailTid c6Email)) :=
  ⟨⟨rfl, by decide, rfl, by decide⟩,
   (C6_reply_or_sentinel c6Env [] c6Email).2.2.2.2 rfl (by decide) "" rfl
     (by decide)⟩

/-! ## Claim C4: the OCR marker block under normalization -/

/-- The spec's own example input. -/
def c4Input : String :=
  "<p>Hi &amp; bye</p>\n\nEXTRACTED IMAGE CONTENT (Attachment 1):\nfoo<bar>"

/-- Counterexample to C4 as stated: on the spec's example the entity is
decoded and the `<p>` tags are stripped from the rest, but the OCR block does
NOT survive character-for-character — its literal `<bar>` is stripped like
any other tag (by `clean_html_tags` and equally by the storage-side
cleaning), and `clean_html_tags` even rewrites the marker itself to
`"EXTRACTED IMAGE CONTENT:"`. -/
theorem C4_counterexample :
    containsSub c4Input "EXTRACTED IMAGE CONTENT" = true ∧
    clean_html_tags c4Input =
      "Hi & bye\nEXTRACTED IMAGE CONTENT: (Attachment 1):\nfoo" ∧
    containsSub (clean_html_tags c4Input) "<bar>" = false ∧
    containsSub (add_message_content c4Input) "<bar>" = false ∧
    containsSub (clean_html_tags c4Input) "Hi & bye" = true ∧
    containsSub (clean_html_tags c4Input) "<p>" = false := by
  refine ⟨?_, ?_, ?_, ?_, ?_, ?_⟩ <;> decide

/-- The core cleaning pass shared by both normalizers: unescape, strip tags,
collapse whitespace, strip. -/
def coreCleanL (content : String) : List Char :=
  pyStripL (collapseWsL (stripTagsL (unescapeL content.data)))

/-- C4 (amended).  Cleaning strips HTML tags everywhere, the OCR block
included; the block is re-appended verbatim from the original only when the
cleaning pass destroyed the literal marker substring itself.  In particular,
whenever the marker survives the core cleaning, the stored content is
exactly the core-cleaned text — nothing inside the block is preserved
character-for-character. -/
theorem C4_marker_block_is_cleaned (content : String)
    (h : containsSubL (coreCleanL content) marker = true) :
    add_message_content content = ⟨coreCleanL content⟩ := by
  unfold add_message_content coreCleanL
  unfold coreCleanL at h
  simp [h]

theorem C4_witness :
    containsSubL (coreCleanL c4Input) marker = true ∧
    add_message_content c4Input = ⟨coreCleanL c4Input⟩ :=
  ⟨by decide, C4_marker_block_is_cleaned c4Input (by decide)⟩

/-! ## Claim C7: tool handlers never raise -/

/-- Counterexample to C7 as stated: in `generate_certificates` the
`os.makedirs` call (line 176) runs outside any `try/except`; if it raises,
the exception leaves the handler and reaches the agent executor. -/
theorem C7_counterexample :
    generate_certificates "Alice" ["Python 101"]
      ⟨.error "Permission denied: ./certificates", fun _ => .done 200⟩ =
    .error "Permission denied: ./certificates" := rfl

/-- A returned (as opposed to raised) handler outcome. -/
def exIsOk : Except String String → Bool
  | .ok _ => true
  | .error _ => false

theorem exIsOk_exists {e : Except String String} (h : exIsOk e = true) :
    ∃ r, e = .ok r := by
  cases e with
  | ok r => exact ⟨r, rfl⟩
  | error _ => simp [exIsOk] at h

theorem exIsOk_ite (c : Prop) [Decidable c] (x y : Except String String)
    (hx : exIsOk x = true) (hy : exIsOk y = true) :
    exIsOk (if c then x else y) = true := by
  by_cases h : c <;> simp [h, hx, hy]

/-- C7 (amended).  Every registered tool handler returns a string and never
raises — with the one exception of `generate_certificates`, whose
certificate-directory creation runs outside its per-course `try/except`:
when that call succeeds (and in every other handler unconditionally), all
failures of the external actions are converted into descriptive failure
strings. -/
theorem C7_handlers_return_strings (orderid emailid userName courseName
      certPath timestamp premiumEmail premiumApp issue app initial ts :
      String)
    (api : ApiOutcome) (po : PremiumOutcome) (db : SheetsDb)
    (nn cn em oi dev osv av co st : Option String) (scr : List String)
    (courses : List String) :
    (∃ r, print_order_details orderid emailid = .ok r) ∧
    (∃ r, generate_certificate userName courseName certPath timestamp api =
      .ok r) ∧
    (∃ r, activate_premium premiumEmail premiumApp po = .ok r) ∧
    (∃ r, (log_user_details db issue app initial nn cn em oi dev osv av co
      st scr ts).2 = .ok r) ∧
    (∀ cenv : CertsEnv, cenv.makedirs = .ok () →
      ∃ r, generate_certificates userName courses cenv = .ok r) := by
  refine ⟨⟨_, rfl⟩, ?_, ?_, ⟨_, rfl⟩, ?_⟩
  · cases api with
    | exn e => exact ⟨_, rfl⟩
    | done code =>
      refine exIsOk_exists ?_
      unfold generate_certificate
      exact exIsOk_ite _ _ _ rfl rfl
  · cases po with
    | reqExn e => exact ⟨_, rfl⟩
    | otherExn e => exact ⟨_, rfl⟩
    | resp status json =>
      cases json with
      | error e => exact ⟨_, rfl⟩
      | ok msgField =>
        refine exIsOk_exists ?_
        unfold activate_premium
        exact exIsOk_ite _ _ _ rfl rfl
  · intro cenv hmk
    refine exIsOk_exists ?_
    unfold generate_certificates
    rw [hmk]
    by_cases hc : courses = []
    · rw [if_pos hc]
      rfl
    · rw [if_neg hc]
      dsimp only
      exact exIsOk_ite _ _ _ rfl (exIsOk_ite _ _ _ rfl rfl)

theorem C7_witness :
    ∃ r, generate_certificates "Alice" ["Python 101"]
      ⟨.ok (), fun _ => .done 200⟩ = .ok r :=
  (C7_handlers_return_strings "o1" "e@x.com" "Alice" "Python 101" "./certs"
    "20250101" "e@x.com" "AppX" "Order Inquiry" "AppX" "msg" "t" (.done 200)
    (.resp 200 (.ok none)) (fun _ => []) none none none none none none none
    none none [] ["Python 101"]).2.2.2.2 ⟨.ok (), fun _ => .done 200⟩ rfl

/-! ## Claim C8: newest-row-first sheet logging -/

/-- C8 evaluation at the failing input.  With a header and one existing data
row, `log_to_sheet` first overwrites row 2 with the new row and then inserts
a blank row above it: the result is `[header, blank, new]` — the previous
newest row is destroyed and the new row is NOT directly under the header
(the claimed result is `[header, new, old]`).  With only a header present
the append path does put the row under the header.  `log_technical_issue`
writes its own sheet's row at the bottom, not under the header. -/
theorem C8_eval :
    log_to_sheet [["Timestamp", "App Name"], ["old-newest", "r"]]
        ["new", "s"] =
      [["Timestamp", "App Name"], [], ["new", "s"]] ∧
    log_to_sheet [["Timestamp", "App Name"], ["old-newest", "r"]]
        ["new", "s"] ≠
      [["Timestamp", "App Name"], ["new", "s"], ["old-newest", "r"]] ∧
    log_to_sheet [["Timestamp", "App Name"]] ["r1", "x"] =
      [["Timestamp", "App Name"], ["r1", "x"]] ∧
    log_technical_issue_insert [["Header"], ["old1"], ["old2"]] ["new"] =
      [["Header"], ["old1"], ["old2"], ["new"]] := by
  refine ⟨?_, ?_, ?_, ?_⟩ <;> decide

/-! ## Claim C10: Re: prefixing of the outbound subject -/

theorem string_ext {s t : String} (h : s.data = t.data) : s = t := by
  cases s
  cases t
  exact congrArg String.mk h

theorem head?_dropWhile_false (p : Char → Bool) (l : List Char) (a : Char)
    (h : (l.dropWhile p).head? = some a) : p a = false := by
  induction l with
  | nil => simp [List.dropWhile] at h
  | cons b t ih =>
    rw [List.dropWhile_cons] at h
    cases hb : p b with
    | true =>
      rw [hb] at h
      simp at h
      exact ih h
    | false =>
      rw [hb] at h
      simp at h
      rw [← h]
      exact hb

theorem dropWhile_eq_self_of_head (p : Char → Bool) (l : List Char)
    (h : ∀ a, l.head? = some a → p a = false) : l.dropWhile p = l := by
  cases l with
  | nil => rfl
  | cons a t =>
    rw [List.dropWhile_cons, if_neg]
    simp [h a rfl]

theorem getLast?_dropWhile (p : Char → Bool) (l : List Char)
    (h : l.dropWhile p ≠ []) :
    (l.dropWhile p).getLast? = l.getLast? := by
  induction l with
  | nil => simp [List.dropWhile] at h
  | cons a t ih =>
    rw [List.dropWhile_cons]
    rw [List.dropWhile_cons] at h
    cases ha : p a with
    | false =>
      rfl
    | true =>
      rw [ha] at h
      simp only [ite_true] at h ⊢
      have ht : t ≠ [] := by
        intro he
        rw [he] at h
        simp [List.dropWhile] at h
      cases t with
      | nil => exact absurd rfl ht
      | cons b t' =>
        rw [ih h, List.getLast?_cons_cons]

theorem pyStripL_head (l : List Char) (a : Char)
    (h : (pyStripL l).head? = some a) : pyIsSpace a = false := by
  unfold pyStripL at h
  rw [List.head?_reverse] at h
  have hne : (l.dropWhile pyIsSpace).reverse.dropWhile pyIsSpace ≠ [] := by
    intro he
    rw [he] at h
    simp at h
  rw [getLast?_dropWhile pyIsSpace _ hne, List.getLast?_reverse] at h
  exact head?_dropWhile_false pyIsSpace l a h

theorem pyStripL_getLast (l : List Char) (a : Char)
    (h : (pyStripL l).getLast? = some a) : pyIsSpace a = false := by
  unfold pyStripL at h
  rw [List.getLast?_reverse] at h
  exact head?_dropWhile_false pyIsSpace (l.dropWhile pyIsSpace).reverse a h

theorem pyStripL_eq_self (l : List Char)
    (h1 : ∀ a, l.head? = some a → pyIsSpace a = false)
    (h2 : ∀ a, l.getLast? = some a → pyIsSpace a = false) :
    pyStripL l = l := by
  unfold pyStripL
  rw [dropWhile_eq_self_of_head pyIsSpace l h1,
    dropWhile_eq_self_of_head pyIsSpace l.reverse
      (fun a ha => h2 a (by rwa [List.head?_reverse] at ha)),
    List.reverse_reverse]

theorem pyStripL_idem (l : List Char) :
    pyStripL (pyStripL l) = pyStripL l :=
  pyStripL_eq_self (pyStripL l) (pyStripL_head l) (pyStripL_getLast l)

theorem pyStripL_Re_append (c : List Char) (hne : c ≠ [])
    (hc : ∀ a, c.getLast? = some a → pyIsSpace a = false) :
    pyStripL ('R' :: 'e' :: ':' :: ' ' :: c) =
      'R' :: 'e' :: ':' :: ' ' :: c := by
  apply pyStripL_eq_self
  · intro a ha
    simp at ha
    rw [← ha]
    rfl
  · intro a ha
    have : ('R' :: 'e' :: ':' :: ' ' :: c).getLast? = c.getLast? := by
      cases c with
      | nil => exact absurd rfl hne
      | cons b t =>
        rw [List.getLast?_cons_cons, List.getLast?_cons_cons,
          List.getLast?_cons_cons, List.getLast?_cons_cons]
    rw [this] at ha
    exact hc a ha

theorem pyLowerL_Re (c : List Char) :
    pyLowerL ('R' :: 'e' :: ':' :: ' ' :: c) =
      'r' :: 'e' :: ':' :: ' ' :: pyLowerL c := by
  simp [pyLowerL]

theorem re_isPrefixOf (l : List Char) :
    (['r', 'e', ':'] : List Char).isPrefixOf ('r' :: 'e' :: ':' :: l) =
      true := by
  simp [List.isPrefixOf]

theorem data_Re_append (c : String) :
    ("Re: " ++ c).data = 'R' :: 'e' :: ':' :: ' ' :: c.data := by
  rw [String.data_append]
  rfl

/-- Counterexample to C10 as stated: the transformation is not idempotent.
For a whitespace-only subject the first application yields `"Re: "` (with a
trailing space) and the second strips it to `"Re:"`, a different string. -/
theorem C10_counterexample :
    send_email_reply_subject "" = "Re: " ∧
    send_email_reply_subject (send_email_reply_subject "") = "Re:" ∧
    send_email_reply_subject (send_email_reply_subject "") ≠
      send_email_reply_subject "" := by
  refine ⟨?_, ?_, ?_⟩ <;> decide

/-- C10 (amended).  The outbound subject always begins with `"re:"`
case-insensitively; the `"Re: "` prefix is added to the stripped subject
exactly when the stripped subject does not already begin with `"re:"`
case-insensitively, which is otherwise returned unchanged; and the
transformation is idempotent for every subject whose stripped form is
nonempty (for whitespace-only subjects the output is `"Re: "` whose second
pass yields `"Re:"`). -/
theorem C10_re_prefixing (s : String) :
    "re:".data.isPrefixOf (pyLower (send_email_reply_subject s)).data =
      true ∧
    ("re:".data.isPrefixOf (pyLower (pyStrip s)).data = false →
      send_email_reply_subject s = "Re: " ++ pyStrip s) ∧
    ("re:".data.isPrefixOf (pyLower (pyStrip s)).data = true →
      send_email_reply_subject s = pyStrip s) ∧
    (pyStrip s ≠ "" →
      send_email_reply_subject (send_email_reply_subject s) =
        send_email_reply_subject s) := by
  have hlow : ∀ c : String,
      (pyLower ("Re: " ++ c)).data = 'r' :: 'e' :: ':' :: ' '
        :: pyLowerL c.data := by
    intro c
    show pyLowerL ("Re: " ++ c).data = _
    rw [data_Re_append, pyLowerL_Re]
  refine ⟨?_, ?_, ?_, ?_⟩
  · unfold send_email_reply_subject
    cases hcond : "re:".data.isPrefixOf (pyLower (pyStrip s)).data with
    | true =>
      rw [if_pos (by simp [hcond])]
      exact hcond
    | false =>
      rw [if_neg (by simp [hcond])]
      rw [hlow (pyStrip s)]
      exact re_isPrefixOf _
  · intro hcond
    unfold send_email_reply_subject
    rw [if_neg (by simp [hcond])]
  · intro hcond
    unfold send_email_reply_subject
    rw [if_pos (by simp [hcond])]
  · intro hne
    have hdne : (pyStrip s).data ≠ [] := by
      intro he
      exact hne (string_ext he)
    cases hcond : "re:".data.isPrefixOf (pyLower (pyStrip s)).data with
    | true =>
      have h1 : send_email_reply_subject s = pyStrip s := by
        unfold send_email_reply_subject
        rw [if_pos (by simp [hcond])]
      rw [h1]
      have hstrip : pyStrip (pyStrip s) = pyStrip s := by
        apply string_ext
        show pyStripL (pyStripL s.data) = pyStripL s.data
        exact pyStripL_idem s.data
      unfold send_email_reply_subject
      rw [hstrip]
      rw [if_pos (by simp [hcond])]
    | false =>
      have h1 : send_email_reply_subject s = "Re: " ++ pyStrip s := by
        unfold send_email_reply_subject
        rw [if_neg (by simp [hcond])]
      rw [h1]
      have hstrip : pyStrip ("Re: " ++ pyStrip s) = "Re: " ++ pyStrip s := by
        apply string_ext
        show pyStripL ("Re: " ++ pyStrip s).data = ("Re: " ++ pyStrip s).data
        rw [data_Re_append]
        exact pyStripL_Re_append (pyStrip s).data hdne
          (pyStripL_getLast s.data)
      unfold send_email_reply_subject
      rw [hstrip]
      rw [if_pos ?_]
      rw [hlow (pyStrip s)]
      exact re_isPrefixOf _

theorem C10_witness :
    pyStrip "  hello  " ≠ "" ∧
    send_email_reply_subject (send_email_reply_subject "  hello  ") =
      send_email_reply_subject "  hello  " :=
  ⟨by decide, (C10_re_prefixing "  hello  ").2.2.2 (by decide)⟩

end CRM
